import Mathlib

/-!
Shallow embedding of `authorization.go` from momayyez/authztraefikgateway.

The repository is a single-file Traefik middleware plugin.  Its core is
`AuthMiddleware.ServeHTTP`, which per inbound request:
  1. reads the `Authorization` header (empty lookup result means absent);
  2. splits the request path on `/` and requires at least 6 segments,
     deriving `permission = "/" + pathParts[4] + "#" + pathParts[5]`;
  3. rejects with 500 when the configured Keycloak URL is empty;
  4. builds a form-urlencoded POST to the Keycloak URL and sends it;
  5. forwards to the `next` handler iff the Keycloak response status is 200.

Effects are made explicit: the outcome of `http.NewRequest` and of
`client.Do` (the only external effects that influence control flow) are
inputs in an `Env`; the requests handed to the downstream handler and the
queries handed to `client.Do` are recorded in the result, so "downstream
handler invoked exactly once with the original request" and "no policy
query sent" are plain statements about the result value.
-/

namespace AuthzGateway

/-- Go `strings.Split(s, "/")` restricted to the one-character separator
`"/"`, written over the character list so that it reduces in the kernel:
every separator occurrence produces a boundary, and the (possibly empty)
runs between boundaries are the resulting segments.  `Split("", "/") = [""]`
and `Split("/", "/") = ["", ""]`, as in Go. -/
def splitOnSlashAux : List Char → List Char → List (List Char)
  | [], acc => [acc.reverse]
  | c :: cs, acc =>
    if c = '/' then acc.reverse :: splitOnSlashAux cs []
    else splitOnSlashAux cs (c :: acc)

/-- `strings.Split(s, "/")` as used on `req.URL.Path` in `ServeHTTP`. -/
def splitOnSlash (s : String) : List String :=
  (splitOnSlashAux s.toList []).map String.mk

/-- Go `strings.TrimSpace` (whitespace stripped from both ends), used by
`New` only to decide whether to log a configuration warning. -/
def trimSpace (s : String) : String :=
  String.mk (((s.toList.dropWhile Char.isWhitespace).reverse.dropWhile
    Char.isWhitespace).reverse)

/-- An inbound HTTP request as the middleware sees it: method, URL path,
headers and body.  `headerGet` mirrors Go's `req.Header.Get`, which returns
`""` when the header is absent, so "absent or empty header" is exactly
`headerGet r "Authorization" = ""`. -/
structure Request where
  method : String
  path : String
  headers : List (String × String)
  body : String
deriving DecidableEq, Repr

/-- `req.Header.Get(key)`: first value for the key, `""` if absent. -/
def Request.headerGet (r : Request) (key : String) : String :=
  match r.headers.find? (fun p => p.1 = key) with
  | some p => p.2
  | none => ""

/-- The plugin configuration (`Config` in the source): the Keycloak token
endpoint URL and the Keycloak client id used as `audience`. -/
structure Config where
  keycloakURL : String
  keycloakClientId : String
deriving DecidableEq, Repr

/-- `CreateConfig()`: an empty config, to be populated from YAML. -/
def CreateConfig : Config :=
  { keycloakURL := "", keycloakClientId := "" }

/-- The middleware state (`AuthMiddleware` in the source).  The `next`
handler is not a field here: invocations of it are recorded in the
`ServeResult` instead. -/
structure AuthMiddleware where
  keycloakClientId : String
  keycloakUrl : String
  name : String
deriving DecidableEq, Repr

/-- The authorization server's response as far as `ServeHTTP` consumes it:
status code and (logged-only) body. -/
structure KcResponse where
  statusCode : Nat
  body : String
deriving DecidableEq, Repr

/-- The outbound policy query built by `ServeHTTP`: method and URL of
`http.NewRequest`, the `url.Values` form data that becomes its body, and
the headers set on it. -/
structure OutboundRequest where
  method : String
  url : String
  formData : List (String × String)
  headers : List (String × String)
deriving DecidableEq, Repr

/-- The two external effects whose outcome steers `ServeHTTP`'s control
flow: whether `http.NewRequest` fails (with some error text) and what
`client.Do` returns (a response, or a transport error with error text). -/
structure Env where
  newRequestErr : Option String
  doResult : Except String KcResponse
deriving Repr

/-- What the gate itself writes on the inbound response channel: an error
response via `http.Error(w, body, status)`, or nothing because the
downstream handler was given the channel.  (Go's `http.Error` appends a
trailing newline when writing `body`; the message string is modeled as the
body.) -/
inductive GateResponse where
  | errorResp (status : Nat) (body : String)
  | downstream
deriving DecidableEq, Repr

/-- Complete account of one `ServeHTTP` call: the gate's own response, the
list of requests passed to the downstream (`next`) handler, and the list of
policy queries handed to `client.Do`. -/
structure ServeResult where
  response : GateResponse
  downstreamCalls : List Request
  sentQueries : List OutboundRequest
deriving DecidableEq, Repr

/-- The constant `grant_type` value set in the form data. -/
def umaTicketGrantType : String := "urn:ietf:params:oauth:grant-type:uma-ticket"

/-- The permission derivation embedded in `ServeHTTP` lines 46–57: split
the path on `/`; fewer than 6 segments is the `InvalidPathFormat` failure
(`none`); otherwise the permission is
`"/" + pathParts[4] + "#" + pathParts[5]`. -/
def derivePermission (path : String) : Option String :=
  let pathParts := splitOnSlash path
  if pathParts.length < 6 then
    none
  else
    some ("/" ++ pathParts.getD 4 "" ++ "#" ++ pathParts.getD 5 "")

/-- `AuthMiddleware.ServeHTTP`, step for step from the source.  The checks
happen in source order: Authorization header, path format, Keycloak URL,
`http.NewRequest`, `client.Do`, status code. -/
def AuthMiddleware.serveHTTP (am : AuthMiddleware) (req : Request) (env : Env) :
    ServeResult :=
  let authorizationHeader := req.headerGet "Authorization"
  if authorizationHeader = "" then
    { response := .errorResp 401 "Missing Authorization header",
      downstreamCalls := [], sentQueries := [] }
  else
    match derivePermission req.path with
    | none =>
      { response := .errorResp 400
          "Invalid path format. Expected format: /prefix/.../<resource>/<scope>",
        downstreamCalls := [], sentQueries := [] }
    | some permission =>
      let formData : List (String × String) :=
        [("permission", permission),
         ("grant_type", umaTicketGrantType),
         ("audience", am.keycloakClientId)]
      if am.keycloakUrl = "" then
        { response := .errorResp 500 "Misconfigured Keycloak URL",
          downstreamCalls := [], sentQueries := [] }
      else
        match env.newRequestErr with
        | some e =>
          { response := .errorResp 401 e, downstreamCalls := [], sentQueries := [] }
        | none =>
          let kcReq : OutboundRequest :=
            { method := "POST", url := am.keycloakUrl, formData := formData,
              headers := [("Authorization", authorizationHeader),
                          ("Content-Type", "application/x-www-form-urlencoded")] }
          match env.doResult with
          | .error e =>
            { response := .errorResp 401 e, downstreamCalls := [],
              sentQueries := [kcReq] }
          | .ok kcResp =>
            if kcResp.statusCode = 200 then
              { response := .downstream, downstreamCalls := [req],
                sentQueries := [kcReq] }
            else
              { response := .errorResp 401 "Unauthorized", downstreamCalls := [],
                sentQueries := [kcReq] }

/-- `New`: fails only on a nil config; an empty or whitespace-only
`KeycloakURL`/`KeycloakClientId` merely logs a warning and construction
proceeds with the values copied verbatim. -/
def New (config : Option Config) (name : String) : Except String AuthMiddleware :=
  match config with
  | none => .error "nil config provided"
  | some c =>
    .ok { keycloakClientId := c.keycloakClientId,
          keycloakUrl := c.keycloakURL,
          name := name }

/-- The spec's "degraded instance" condition, from the warning checks in
`New` (lines 129–134): a required value is empty or whitespace-only. -/
def Config.degraded (c : Config) : Prop :=
  trimSpace c.keycloakURL = "" ∨ trimSpace c.keycloakClientId = ""

instance (c : Config) : Decidable c.degraded := by
  unfold Config.degraded
  infer_instance

/-! Concrete fixtures used by witnesses and counterexamples. -/

/-- A fully configured middleware instance. -/
def mwOk : AuthMiddleware :=
  { keycloakClientId := "gateway-client",
    keycloakUrl := "https://kc.example/realms/r/protocol/openid-connect/token",
    name := "authz" }

/-- A well-formed inbound request: Authorization header present, path with
7 segments. -/
def reqOk : Request :=
  { method := "GET", path := "/api/v1/tenant/orders/read/42",
    headers := [("Authorization", "Bearer tok123")], body := "" }

/-- A request with no Authorization header. -/
def reqNoAuth : Request :=
  { method := "GET", path := "/api/v1/tenant/orders/read/42",
    headers := [("Accept", "application/json")], body := "" }

/-- A request whose path splits into only 4 segments. -/
def reqShortPath : Request :=
  { method := "GET", path := "/api/orders/read",
    headers := [("Authorization", "Bearer tok123")], body := "" }

/-- A request whose path has 6 segments with empty resource and scope. -/
def reqEmptySegs : Request :=
  { method := "GET", path := "/a/b/c//",
    headers := [("Authorization", "Bearer tok123")], body := "" }

/-- An environment where request construction succeeds and the
authorization server answers with the given status. -/
def envOk (status : Nat) : Env :=
  { newRequestErr := none, doResult := .ok { statusCode := status, body := "{}" } }

/-- An environment where `client.Do` fails with a transport error. -/
def envDoFail : Env :=
  { newRequestErr := none, doResult := .error "connection refused" }

/-- C5: a request whose Authorization header is absent or empty (Go's
`Header.Get` returns `""` in both cases) is answered 401 with body
"Missing Authorization header"; the downstream handler is not invoked and
no policy query is sent. -/
theorem serveHTTP_missing_authorization_401
    (am : AuthMiddleware) (req : Request) (env : Env)
    (hak : req.headerGet "Authorization" = "") :
    am.serveHTTP req env =
      { response := .errorResp 401 "Missing Authorization header",
        downstreamCalls := [], sentQueries := [] } := by
  simp [AuthMiddleware.serveHTTP, hak]

/-- Witness for C5 at a concrete headerless request. -/
theorem serveHTTP_missing_authorization_401_witness :
    mwOk.serveHTTP reqNoAuth (envOk 200) =
      { response := .errorResp 401 "Missing Authorization header",
        downstreamCalls := [], sentQueries := [] } :=
  serveHTTP_missing_authorization_401 mwOk reqNoAuth (envOk 200) (by decide)

/-- C6: a request with a non-empty Authorization header whose path splits
into fewer than 6 segments is answered 400; the downstream handler is not
invoked and no policy query is sent. -/
theorem serveHTTP_short_path_400
    (am : AuthMiddleware) (req : Request) (env : Env)
    (hak : req.headerGet "Authorization" ≠ "")
    (hlen : (splitOnSlash req.path).length < 6) :
    am.serveHTTP req env =
      { response := .errorResp 400
          "Invalid path format. Expected format: /prefix/.../<resource>/<scope>",
        downstreamCalls := [], sentQueries := [] } := by
  simp [AuthMiddleware.serveHTTP, derivePermission, hak, hlen]

/-- Witness for C6 at a concrete 4-segment path. -/
theorem serveHTTP_short_path_400_witness :
    mwOk.serveHTTP reqShortPath (envOk 200) =
      { response := .errorResp 400
          "Invalid path format. Expected format: /prefix/.../<resource>/<scope>",
        downstreamCalls := [], sentQueries := [] } :=
  serveHTTP_short_path_400 mwOk reqShortPath (envOk 200) (by decide) (by decide)

/-- C7: when the configured Keycloak URL is the empty string, every
request with a non-empty Authorization header and a path of at least 6
segments is answered 500 with body "Misconfigured Keycloak URL"; the
downstream handler is not invoked and no policy query is sent. -/
theorem serveHTTP_empty_keycloak_url_500
    (am : AuthMiddleware) (req : Request) (env : Env)
    (hurl : am.keycloakUrl = "")
    (hak : req.headerGet "Authorization" ≠ "")
    (hlen : 6 ≤ (splitOnSlash req.path).length) :
    am.serveHTTP req env =
      { response := .errorResp 500 "Misconfigured Keycloak URL",
        downstreamCalls := [], sentQueries := [] } := by
  have h6 : ¬ (splitOnSlash req.path).length < 6 := Nat.not_lt.mpr hlen
  simp [AuthMiddleware.serveHTTP, derivePermission, hak, hurl, h6]

/-- Witness for C7 at a concrete instance with empty URL. -/
theorem serveHTTP_empty_keycloak_url_500_witness :
    AuthMiddleware.serveHTTP
      { keycloakClientId := "gateway-client", keycloakUrl := "", name := "authz" }
      reqOk (envOk 200) =
      { response := .errorResp 500 "Misconfigured Keycloak URL",
        downstreamCalls := [], sentQueries := [] } :=
  serveHTTP_empty_keycloak_url_500
    { keycloakClientId := "gateway-client", keycloakUrl := "", name := "authz" }
    reqOk (envOk 200) rfl (by decide) (by decide)

/-- C1: when the credential, path-format and configuration checks pass,
request construction succeeds and the authorization server answers 200,
the downstream handler is invoked exactly once with the original inbound
request (the very same value: method, path, headers and body unmodified,
on the original response channel) and the gate writes no error response
of its own. -/
theorem serveHTTP_grant_forwards_original_request
    (am : AuthMiddleware) (req : Request) (env : Env) (resp : KcResponse)
    (hak : req.headerGet "Authorization" ≠ "")
    (hlen : 6 ≤ (splitOnSlash req.path).length)
    (hurl : am.keycloakUrl ≠ "")
    (hnr : env.newRequestErr = none)
    (hdo : env.doResult = .ok resp)
    (hst : resp.statusCode = 200) :
    (am.serveHTTP req env).downstreamCalls = [req] ∧
    (am.serveHTTP req env).response = .downstream := by
  have h6 : ¬ (splitOnSlash req.path).length < 6 := Nat.not_lt.mpr hlen
  simp [AuthMiddleware.serveHTTP, derivePermission, hak, hurl, h6, hnr, hdo, hst]

/-- Witness for C1 at a concrete granted request. -/
theorem serveHTTP_grant_forwards_original_request_witness :
    (mwOk.serveHTTP reqOk (envOk 200)).downstreamCalls = [reqOk] ∧
    (mwOk.serveHTTP reqOk (envOk 200)).response = .downstream :=
  serveHTTP_grant_forwards_original_request mwOk reqOk (envOk 200)
    { statusCode := 200, body := "{}" }
    (by decide) (by decide) (by decide) rfl rfl rfl

/-- C2: once a request reaches the decision step, the outcome depends only
on the authorization server's status code — replacing the response body
changes nothing — and any status other than 200 is answered 401 with body
"Unauthorized", the downstream handler never invoked. -/
theorem serveHTTP_decision_from_status_only
    (am : AuthMiddleware) (req : Request) (env : Env) (resp : KcResponse)
    (hak : req.headerGet "Authorization" ≠ "")
    (hlen : 6 ≤ (splitOnSlash req.path).length)
    (hurl : am.keycloakUrl ≠ "")
    (hnr : env.newRequestErr = none)
    (hdo : env.doResult = .ok resp) :
    (∀ b : String,
        am.serveHTTP req { env with doResult := .ok { statusCode := resp.statusCode, body := b } } =
        am.serveHTTP req env) ∧
    (resp.statusCode ≠ 200 →
        (am.serveHTTP req env).response = .errorResp 401 "Unauthorized" ∧
        (am.serveHTTP req env).downstreamCalls = []) := by
  have h6 : ¬ (splitOnSlash req.path).length < 6 := Nat.not_lt.mpr hlen
  constructor
  · intro b
    by_cases hst : resp.statusCode = 200 <;>
      simp [AuthMiddleware.serveHTTP, derivePermission, hak, hurl, h6, hnr, hdo, hst]
  · intro hst
    simp [AuthMiddleware.serveHTTP, derivePermission, hak, hurl, h6, hnr, hdo, hst]

/-- Witness for C2 at a concrete 403 answer. -/
theorem serveHTTP_decision_from_status_only_witness :
    (mwOk.serveHTTP reqOk (envOk 403)).response = .errorResp 401 "Unauthorized" ∧
    (mwOk.serveHTTP reqOk (envOk 403)).downstreamCalls = [] :=
  (serveHTTP_decision_from_status_only mwOk reqOk (envOk 403)
    { statusCode := 403, body := "{}" }
    (by decide) (by decide) (by decide) rfl rfl).2 (by decide)

/-- C8: when a request reaches the policy-query step and either
`http.NewRequest` fails or `client.Do` fails (transport error), the gate
answers 401 — not 500 or 503 — with the underlying error text as the
body, and the downstream handler is never invoked. -/
theorem serveHTTP_upstream_failure_401
    (am : AuthMiddleware) (req : Request) (env : Env) (e : String)
    (hak : req.headerGet "Authorization" ≠ "")
    (hlen : 6 ≤ (splitOnSlash req.path).length)
    (hurl : am.keycloakUrl ≠ "")
    (hfail : env.newRequestErr = some e ∨
             (env.newRequestErr = none ∧ env.doResult = .error e)) :
    (am.serveHTTP req env).response = .errorResp 401 e ∧
    (am.serveHTTP req env).downstreamCalls = [] := by
  have h6 : ¬ (splitOnSlash req.path).length < 6 := Nat.not_lt.mpr hlen
  rcases hfail with hnr | ⟨hnr, hdo⟩
  · simp [AuthMiddleware.serveHTTP, derivePermission, hak, hurl, h6, hnr]
  · simp [AuthMiddleware.serveHTTP, derivePermission, hak, hurl, h6, hnr, hdo]

/-- Witness for C8 at a concrete refused connection. -/
theorem serveHTTP_upstream_failure_401_witness :
    (mwOk.serveHTTP reqOk envDoFail).response = .errorResp 401 "connection refused" ∧
    (mwOk.serveHTTP reqOk envDoFail).downstreamCalls = [] :=
  serveHTTP_upstream_failure_401 mwOk reqOk envDoFail "connection refused"
    (by decide) (by decide) (by decide) (Or.inr ⟨rfl, rfl⟩)

/-- C9: whenever the dispatch step is reached (checks passed and request
construction succeeded), exactly one policy query is handed to the HTTP
client, and it is a POST to the configured Keycloak URL whose form data is
exactly the fields `permission` (the derived string), `grant_type` (the
UMA-ticket constant) and `audience` (the configured client id), carrying
the inbound Authorization header value unchanged and
`Content-Type: application/x-www-form-urlencoded`. -/
theorem serveHTTP_outbound_query_contract
    (am : AuthMiddleware) (req : Request) (env : Env)
    (hak : req.headerGet "Authorization" ≠ "")
    (hlen : 6 ≤ (splitOnSlash req.path).length)
    (hurl : am.keycloakUrl ≠ "")
    (hnr : env.newRequestErr = none) :
    (am.serveHTTP req env).sentQueries =
      [{ method := "POST",
         url := am.keycloakUrl,
         formData :=
           [("permission",
             "/" ++ (splitOnSlash req.path).getD 4 "" ++ "#" ++
               (splitOnSlash req.path).getD 5 ""),
            ("grant_type", umaTicketGrantType),
            ("audience", am.keycloakClientId)],
         headers := [("Authorization", req.headerGet "Authorization"),
                     ("Content-Type", "application/x-www-form-urlencoded")] }] := by
  have h6 : ¬ (splitOnSlash req.path).length < 6 := Nat.not_lt.mpr hlen
  rcases hdo : env.doResult with e | resp
  · simp [AuthMiddleware.serveHTTP, derivePermission, hak, hurl, h6, hnr, hdo]
  · by_cases hst : resp.statusCode = 200 <;>
      simp [AuthMiddleware.serveHTTP, derivePermission, hak, hurl, h6, hnr, hdo, hst]

/-- Witness for C9 at a concrete request. -/
theorem serveHTTP_outbound_query_contract_witness :
    (mwOk.serveHTTP reqOk (envOk 200)).sentQueries =
      [{ method := "POST",
         url := mwOk.keycloakUrl,
         formData :=
           [("permission",
             "/" ++ (splitOnSlash reqOk.path).getD 4 "" ++ "#" ++
               (splitOnSlash reqOk.path).getD 5 ""),
            ("grant_type", umaTicketGrantType),
            ("audience", mwOk.keycloakClientId)],
         headers := [("Authorization", reqOk.headerGet "Authorization"),
                     ("Content-Type", "application/x-www-form-urlencoded")] }] :=
  serveHTTP_outbound_query_contract mwOk reqOk (envOk 200)
    (by decide) (by decide) (by decide) rfl

/-- C3: for every path of at least 6 segments the derived permission is
`"/" + segment 4 + "#" + segment 5`; `/a/b/c/orders/read/42` yields
`/orders#read`; the exactly-6-segment `/a/b/c/orders/read` yields resource
`orders` and scope `read`; and any two ≥6-segment paths agreeing on
segments 4 and 5 derive the same permission, so segments after index 5
have no effect. -/
theorem derivePermission_from_fixed_segments :
    (∀ p : String, 6 ≤ (splitOnSlash p).length →
        derivePermission p =
          some ("/" ++ (splitOnSlash p).getD 4 "" ++ "#" ++
            (splitOnSlash p).getD 5 "")) ∧
    derivePermission "/a/b/c/orders/read/42" = some "/orders#read" ∧
    derivePermission "/a/b/c/orders/read" = some "/orders#read" ∧
    (∀ p q : String, 6 ≤ (splitOnSlash p).length → 6 ≤ (splitOnSlash q).length →
        (splitOnSlash p).getD 4 "" = (splitOnSlash q).getD 4 "" →
        (splitOnSlash p).getD 5 "" = (splitOnSlash q).getD 5 "" →
        derivePermission p = derivePermission q) := by
  have hfor : ∀ p : String, 6 ≤ (splitOnSlash p).length →
      derivePermission p =
        some ("/" ++ (splitOnSlash p).getD 4 "" ++ "#" ++
          (splitOnSlash p).getD 5 "") := by
    intro p hp
    simp [derivePermission, Nat.not_lt.mpr hp]
  refine ⟨hfor, by decide, by decide, ?_⟩
  intro p q hp hq h4 h5
  rw [hfor p hp, hfor q hq, h4, h5]

/-- Witness for C3: the general formula evaluated at a concrete path with
trailing segments beyond index 5. -/
theorem derivePermission_from_fixed_segments_witness :
    derivePermission "/x/y/z/doc/write/9/extra" =
      some ("/" ++ (splitOnSlash "/x/y/z/doc/write/9/extra").getD 4 "" ++ "#" ++
        (splitOnSlash "/x/y/z/doc/write/9/extra").getD 5 "") :=
  derivePermission_from_fixed_segments.1 "/x/y/z/doc/write/9/extra" (by decide)

/-- C10: the path-format check counts `/`-separated segments and never
inspects their content — derivation fails exactly when there are fewer
than 6 segments — and the 6-segment path `/a/b/c//`, whose segments 4 and
5 are empty, is not rejected with 400: the gate proceeds and sends the
authorization server a policy query whose permission is `"/#"`. -/
theorem path_check_counts_segments_only :
    (∀ p : String, derivePermission p = none ↔ (splitOnSlash p).length < 6) ∧
    derivePermission "/a/b/c//" = some "/#" ∧
    (mwOk.serveHTTP reqEmptySegs (envOk 200)).response ≠
      .errorResp 400
        "Invalid path format. Expected format: /prefix/.../<resource>/<scope>" ∧
    (mwOk.serveHTTP reqEmptySegs (envOk 200)).sentQueries.map
        OutboundRequest.formData =
      [[("permission", "/#"),
        ("grant_type", umaTicketGrantType),
        ("audience", "gateway-client")]] := by
  refine ⟨?_, by decide, by decide, by decide⟩
  intro p
  by_cases hp : (splitOnSlash p).length < 6 <;> simp [derivePermission, hp]

/-- A config with a valid URL but an empty (hence degraded) client id. -/
def cfgDegradedClient : Config :=
  { keycloakURL := "https://kc.example/realms/r/protocol/openid-connect/token",
    keycloakClientId := "" }

/-- The middleware instance `New` builds from `cfgDegradedClient`. -/
def mwDegradedClient : AuthMiddleware :=
  { keycloakClientId := "",
    keycloakUrl := "https://kc.example/realms/r/protocol/openid-connect/token",
    name := "authz" }

/-- Counterexample to C4: a degraded instance (empty client id, so a
required value is missing) does not fail every request with 500 — with a
valid URL it sends the policy query and, on a 200 answer, invokes the
downstream handler. Only an empty URL triggers `MisconfiguredError`. -/
theorem degraded_instance_not_always_500 :
    cfgDegradedClient.degraded ∧
    New (some cfgDegradedClient) "authz" = .ok mwDegradedClient ∧
    (mwDegradedClient.serveHTTP reqOk (envOk 200)).response = .downstream ∧
    (mwDegradedClient.serveHTTP reqOk (envOk 200)).downstreamCalls = [reqOk] ∧
    (mwDegradedClient.serveHTTP reqOk (envOk 200)).sentQueries ≠ [] :=
  ⟨Or.inr (by decide), rfl, by decide, by decide, by decide⟩

/-- C4 as amended: for an instance built by `New` whose configured URL is
the empty string, every request that passes the credential and
path-format checks fails with 500 "Misconfigured Keycloak URL", the
downstream handler is never invoked and no policy query is sent.
Degradation through a whitespace-only URL or an empty client id does not
trigger this, and requests failing the earlier checks get those earlier
errors instead. -/
theorem New_empty_url_every_valid_request_500
    (cfg : Config) (name : String) (mw : AuthMiddleware)
    (hnew : New (some cfg) name = .ok mw)
    (hurl : cfg.keycloakURL = "")
    (req : Request) (env : Env)
    (hak : req.headerGet "Authorization" ≠ "")
    (hlen : 6 ≤ (splitOnSlash req.path).length) :
    mw.serveHTTP req env =
      { response := .errorResp 500 "Misconfigured Keycloak URL",
        downstreamCalls := [], sentQueries := [] } := by
  have hmw : mw = { keycloakClientId := cfg.keycloakClientId,
                    keycloakUrl := cfg.keycloakURL, name := name } := by
    simpa [New, eq_comm] using hnew
  have h6 : ¬ (splitOnSlash req.path).length < 6 := Nat.not_lt.mpr hlen
  subst hmw
  simp [AuthMiddleware.serveHTTP, derivePermission, hak, hurl, h6]

/-- Witness for the amended C4 at a concrete empty-URL config. -/
theorem New_empty_url_every_valid_request_500_witness :
    AuthMiddleware.serveHTTP
      { keycloakClientId := "gateway-client", keycloakUrl := "", name := "a" }
      reqOk (envOk 200) =
      { response := .errorResp 500 "Misconfigured Keycloak URL",
        downstreamCalls := [], sentQueries := [] } :=
  New_empty_url_every_valid_request_500
    { keycloakURL := "", keycloakClientId := "gateway-client" } "a"
    { keycloakClientId := "gateway-client", keycloakUrl := "", name := "a" }
    rfl rfl reqOk (envOk 200) (by decide) (by decide)

end AuthzGateway
